import Mathlib

/-!
Verification of the PetJo authentication and session-revocation core.

This file shallowly embeds the auth subsystem of the PetJo backend:
the Redis-backed token blacklist (src/core/token_blacklist.py), the
auth HTTP handlers (src/api/v1/endpoints/auth.py), and the user
service (src/services/user_service.py).  The token codec
(core/security.py) is not present in the source tree; it is modelled
from the specification, as marked on each such definition.

Machine state is the Redis revocation store: an association map from
token to the absolute instant its denial record expires, plus a
per-subject map from user id to (tracked token list, set expiry).
Time is an explicit natural-number parameter (integer seconds since
epoch, as the spec prescribes).  A Redis key set with TTL `d` at
instant `m` exists at instant `now` exactly when `now < m + d`.

Failure modes of the store are part of the state: `available = false`
models `redis_client is None` (connection never established), and
`failing = true` models every store round trip raising `RedisError`
(caught by the source at each call site).
-/

/-- Association-map lookup: first binding wins. -/
def getKey {κ α : Type} [DecidableEq κ] : List (κ × α) → κ → Option α
  | [], _ => none
  | (k', v) :: rest, k => if k' = k then some v else getKey rest k

/-- Association-map deletion of every binding of a key. -/
def delKey {κ α : Type} [DecidableEq κ] : List (κ × α) → κ → List (κ × α)
  | [], _ => []
  | (k', v) :: rest, k => if k' = k then delKey rest k else (k', v) :: delKey rest k

/-- Association-map overwrite of a key (Redis SET/SETEX semantics). -/
def setKey {κ α : Type} [DecidableEq κ] (m : List (κ × α)) (k : κ) (v : α) : List (κ × α) :=
  (k, v) :: delKey m k

/-- Token kind discriminator: the payload field `type` in the source
(access / refresh). -/
inductive TokenKind where
  | access
  | refresh
  deriving DecidableEq

/-- A JWT as the data its signed payload carries.  Token strings are
identified with their payload: the codec signs `sub`, `type`, issue
instant and expiry instant; `sigOK` records whether the signature
verifies against the process secret (false models a corrupted token or
one signed with a different secret). -/
structure SignedToken where
  sub : Option String
  kind : TokenKind
  iat : Nat
  exp : Nat
  sigOK : Bool
  deriving DecidableEq

/-- Typed client-visible failures of the auth endpoints.  Each
constructor is one distinct raised outcome in the source:
`tokenRevoked`, `invalidTokenType` and `invalidTokenPayload` are the
`AuthenticationException`s raised inside the `try` body of the refresh
handler; `invalidToken` and `tokenExpired` are the `HTTPException`s
raised by the token codec; `couldNotValidate` is the catch-all of the
refresh handler (AuthenticationException with the generic
could-not-validate message); the last three arise in login /
change-password. -/
inductive AuthError where
  | tokenRevoked
  | invalidTokenType
  | invalidTokenPayload
  | invalidToken
  | tokenExpired
  | couldNotValidate
  | invalidCredentials
  | inactiveAccount
  | invalidCurrentPassword
  deriving DecidableEq

/-- Whether the error is an `HTTPException` in the source.  The
refresh handler re-raises `HTTPException` unchanged
(`except HTTPException: raise`) but rewraps every other exception —
including its own typed `AuthenticationException`s — into the generic
`couldNotValidate`. -/
def AuthError.isHTTP : AuthError → Bool
  | .invalidToken => true
  | .tokenExpired => true
  | _ => false

/-- Success test for an Except value. -/
def isOkE {ε α : Type} : Except ε α → Bool
  | .ok _ => true
  | .error _ => false

/-- State of the Redis revocation store (token_blacklist.py module
state plus the data held by the Redis server).  `blacklist` maps a
token to the absolute instant its `blacklist:{token}` record expires;
`userSets` maps a user id to the tracked-token list and the absolute
instant the `user_tokens:{user_id}` set expires. -/
structure RedisState where
  available : Bool
  failing : Bool
  blacklist : List (SignedToken × Nat)
  userSets : List (String × (List SignedToken × Nat))
  deriving DecidableEq

/-- Configuration default `REFRESH_TOKEN_EXPIRE_DAYS = 7` (config.py). -/
def REFRESH_TOKEN_EXPIRE_DAYS : Nat := 7

/-- Configuration default `ACCESS_TOKEN_EXPIRE_MINUTES = 30` (config.py). -/
def ACCESS_TOKEN_EXPIRE_MINUTES : Nat := 30

/-- Lifetime in seconds given to every refresh-token denial record:
`settings.REFRESH_TOKEN_EXPIRE_DAYS * 24 * 60 * 60`. -/
def refreshTTLSeconds : Nat := REFRESH_TOKEN_EXPIRE_DAYS * 24 * 60 * 60

/-- Access-token lifetime in seconds. -/
def accessTTLSeconds : Nat := ACCESS_TOKEN_EXPIRE_MINUTES * 60

/-- blacklist_token (token_blacklist.py:38).  No-op when the client is
absent; a `RedisError` from SETEX is caught and logged, leaving the
store unchanged; otherwise SETEX writes the denial record with the
given TTL. -/
def blacklist_token (s : RedisState) (now : Nat) (t : SignedToken) (expiresIn : Nat) :
    RedisState :=
  if s.available = false then s
  else if s.failing = true then s
  else { s with blacklist := setKey s.blacklist t (now + expiresIn) }

/-- is_token_blacklisted (token_blacklist.py:62).  Returns false when
the client is absent (the source comment says not to block users),
false when EXISTS raises (`RedisError` caught), otherwise the
liveness of the denial record. -/
def is_token_blacklisted (s : RedisState) (now : Nat) (t : SignedToken) : Bool :=
  if s.available = false then false
  else if s.failing = true then false
  else
    match getKey s.blacklist t with
    | some e => decide (now < e)
    | none => false

/-- SMEMBERS of `user_tokens:{uid}` under Redis key-expiry semantics:
an expired set is absent. -/
def liveMembers (s : RedisState) (uid : String) (now : Nat) : List SignedToken :=
  match getKey s.userSets uid with
  | some me => if now < me.2 then me.1 else []
  | none => []

/-- blacklist_refresh_token (token_blacklist.py:85).  Denies the token
for the full refresh lifetime via blacklist_token, then — when the
client is present and SADD/EXPIRE do not raise — adds the token to the
per-caller `user_tokens:{user_id}` set and refreshes the TTL of that
set to the full refresh lifetime. -/
def blacklist_refresh_token (s : RedisState) (now : Nat) (uid : String) (t : SignedToken) :
    RedisState :=
  let s1 := blacklist_token s now t refreshTTLSeconds
  if s1.available = false then s1
  else if s1.failing = true then s1
  else
    let members := liveMembers s1 uid now
    let members' := if t ∈ members then members else t :: members
    { s1 with userSets := setKey s1.userSets uid (members', now + refreshTTLSeconds) }

/-- invalidate_all_user_tokens (token_blacklist.py:106).  No-op when
the client is absent or SMEMBERS raises; otherwise denies every member
of the tracked set of the subject (each with the full refresh lifetime) and
deletes the set. -/
def invalidate_all_user_tokens (s : RedisState) (now : Nat) (uid : String) : RedisState :=
  if s.available = false then s
  else if s.failing = true then s
  else
    let tokens := liveMembers s uid now
    let s' := tokens.foldl (fun acc t => blacklist_token acc now t refreshTTLSeconds) s
    { s' with userSets := delKey s'.userSets uid }

/-- Modelled from the spec: core/security.py is not in the source
tree.  `issue(subject_id, kind, ttl)` produces a signed token
embedding the subject id, the kind discriminator, the issue instant
and the absolute expiry `issued_at + ttl` (spec §4.2). -/
def issue (subject : String) (kind : TokenKind) (now ttl : Nat) : SignedToken :=
  { sub := some subject, kind := kind, iat := now, exp := now + ttl, sigOK := true }

/-- Modelled from the spec: codec decode (spec §4.2).  Verifies the
signature and structural validity and fails with the invalid-token
error otherwise; performs no expiry-vs-now comparison. -/
def decode (t : SignedToken) : Except AuthError SignedToken :=
  if t.sigOK = true then .ok t else .error .invalidToken

/-- Modelled from the spec: decode_token as called by the handlers
(core/security.py is not in the source tree).  Verifies the signature
via the codec, and additionally enforces the expiry rule of the spec — a
token is expired when `now >= expires_at` (spec §4.2) and expired
tokens yield the typed expired error (spec §4.4, §7).  The refresh
handler in src performs no separate expiry comparison, so this check
can only live here; both failures are `HTTPException`s, which the
refresh handler re-raises unchanged. -/
def decode_token (now : Nat) (t : SignedToken) : Except AuthError SignedToken :=
  match decode t with
  | .error e => .error e
  | .ok p => if p.exp ≤ now then .error .tokenExpired else .ok p

/-- Modelled from the spec: create_access_token (core/security.py is
not in the source tree); issues an access token for the subject with
the configured access TTL. -/
def create_access_token (uid : String) (now : Nat) : SignedToken :=
  issue uid .access now accessTTLSeconds

/-- Modelled from the spec: create_refresh_token (core/security.py is
not in the source tree); issues a refresh token for the subject with
the configured refresh TTL. -/
def create_refresh_token (uid : String) (now : Nat) : SignedToken :=
  issue uid .refresh now refreshTTLSeconds

/-- Body of the try block of the refresh handler (auth.py:117):
blacklist check first, then decode, then the kind check, then the
subject check; on success the presented token is blacklisted and a
fresh pair is issued for the same subject.  Python `if not user_id`
rejects both a missing and an empty subject. -/
def refresh_body (s : RedisState) (now : Nat) (t : SignedToken) :
    Except AuthError (RedisState × SignedToken × SignedToken) :=
  if is_token_blacklisted s now t = true then .error .tokenRevoked
  else
    match decode_token now t with
    | .error e => .error e
    | .ok p =>
      if p.kind = .refresh then
        match p.sub with
        | none => .error .invalidTokenPayload
        | some uid =>
          if uid = "" then .error .invalidTokenPayload
          else
            .ok (blacklist_refresh_token s now uid t,
                 create_access_token uid now,
                 create_refresh_token uid now)
      else .error .invalidTokenType

/-- refresh_token endpoint (auth.py:113).  `except HTTPException:
raise` lets codec errors through unchanged; `except Exception` catches
everything else — including the typed
`AuthenticationException`s — and raises the generic could-not-validate
error in their place. -/
def refresh_token (s : RedisState) (now : Nat) (t : SignedToken) :
    Except AuthError (RedisState × SignedToken × SignedToken) :=
  match refresh_body s now t with
  | .ok x => .ok x
  | .error e => .error (if e.isHTTP = true then e else .couldNotValidate)

/-- logout endpoint (auth.py:167).  The id of the caller comes from the
access-token dependency; the handler blacklists the presented refresh
token.  Its `except` branch is unreachable: blacklist_refresh_token
catches every store error internally, so the call always succeeds. -/
def logout (s : RedisState) (now : Nat) (uid : String) (t : SignedToken) :
    Except AuthError RedisState :=
  .ok (blacklist_refresh_token s now uid t)

/-- A user row as read by the auth core (models/user.py):
`hashed_password` is nullable for OAuth-only accounts. -/
structure UserRec where
  id : String
  email : String
  hashed_password : Option String
  is_active : Bool
  deriving DecidableEq

/-- Functional model of the password hasher (passlib bcrypt):
the digest determines exactly its plaintext; salting and timing are
outside the model. -/
def get_password_hash (p : String) : String := "bcrypt$" ++ p

/-- verify_password succeeds exactly when the digest is the hash of
the plaintext. -/
def verify_password (plain hashed : String) : Bool :=
  hashed = get_password_hash plain

/-- UserService.authenticate (user_service.py:13): lookup by email;
None when absent, when the password hash is absent (OAuth-only
account), when verification fails, or when the account is inactive —
the inactive check is inside authenticate itself. -/
def authenticate (db : List UserRec) (email pw : String) : Option UserRec :=
  match db.find? (fun u => u.email = email) with
  | none => none
  | some u =>
    match u.hashed_password with
    | none => none
    | some h =>
      if verify_password pw h = false then none
      else if u.is_active = false then none
      else some u

/-- login endpoint (auth.py:68).  The inactive-account branch is kept
exactly as written in the handler even though authenticate already
returns None for inactive users.  The handler performs no revocation
store operation, so the store state is returned unchanged. -/
def login (db : List UserRec) (s : RedisState) (now : Nat) (email pw : String) :
    Except AuthError (RedisState × SignedToken × SignedToken) :=
  match authenticate db email pw with
  | none => .error .invalidCredentials
  | some u =>
    if u.is_active = false then .error .inactiveAccount
    else .ok (s, create_access_token u.id now, create_refresh_token u.id now)

/-- repository.update restricted to the hashed_password column. -/
def update_password (db : List UserRec) (uid : String) (h : String) : List UserRec :=
  db.map (fun u => if u.id = uid then { u with hashed_password := some h } else u)

/-- UserService.change_password (user_service.py:49): lookup by id,
verify the current password, store the new hash.  A missing hash
(OAuth-only account) cannot verify. -/
def change_password (db : List UserRec) (uid oldPw newPw : String) :
    Bool × List UserRec :=
  match db.find? (fun u => u.id = uid) with
  | none => (false, db)
  | some u =>
    match u.hashed_password with
    | none => (false, db)
    | some h =>
      if verify_password oldPw h = false then (false, db)
      else (true, update_password db uid (get_password_hash newPw))

/-- change_password endpoint (auth.py:230): 400 on a wrong current
password, success otherwise.  The handler makes no revocation store
call, so the store state passes through unchanged. -/
def change_password_endpoint (db : List UserRec) (s : RedisState)
    (uid oldPw newPw : String) : Except AuthError (List UserRec × RedisState) :=
  match change_password db uid oldPw newPw with
  | (false, _) => .error .invalidCurrentPassword
  | (true, db') => .ok (db', s)

/-- One auth-API event touching the revocation store, with the instant
at which it runs. -/
inductive StoreOp where
  | logoutOp : Nat → String → SignedToken → StoreOp
  | refreshOp : Nat → SignedToken → StoreOp
  | invalidateOp : Nat → String → StoreOp

/-- Instant at which a store operation runs. -/
def StoreOp.time : StoreOp → Nat
  | .logoutOp n _ _ => n
  | .refreshOp n _ => n
  | .invalidateOp n _ => n

/-- Effect of one auth-API event on the store (a failed refresh leaves
the store unchanged: every refresh failure path returns before the
blacklist write). -/
def applyOp (s : RedisState) : StoreOp → RedisState
  | .logoutOp n u t => blacklist_refresh_token s n u t
  | .refreshOp n t =>
    match refresh_token s n t with
    | .ok (s', _, _) => s'
    | .error _ => s
  | .invalidateOp n u => invalidate_all_user_tokens s n u

/-- Effect of a sequence of auth-API events on the store. -/
def applyOps (s : RedisState) (ops : List StoreOp) : RedisState :=
  ops.foldl applyOp s

/-- Empty store with a healthy client. -/
def sLive : RedisState := ⟨true, false, [], []⟩

/-- Store whose client was never connected (`redis_client is None`). -/
def sDown : RedisState := ⟨false, false, [], []⟩

/-- Store whose client is present but every round trip raises
`RedisError`. -/
def sFailing : RedisState := ⟨true, true, [], []⟩

/-- A refresh token issued to subject u1 at instant 0. -/
def tR0 : SignedToken := issue "u1" .refresh 0 refreshTTLSeconds

/-- A refresh token issued to subject u1 at instant 100. -/
def tB : SignedToken := issue "u1" .refresh 100 refreshTTLSeconds

/-- A refresh token for subject s1 presented by several callers. -/
def tS : SignedToken := issue "s1" .refresh 0 refreshTTLSeconds

/-- A refresh token issued to subject u1 at instant 50. -/
def t2c : SignedToken := issue "u1" .refresh 50 refreshTTLSeconds

/-- A refresh token issued to subject v1 at instant 50. -/
def t3c : SignedToken := issue "v1" .refresh 50 refreshTTLSeconds

/-- A refresh token for u1 that expires at instant 100. -/
def tExp : SignedToken := issue "u1" .refresh 0 100

/-- Store in which tExp is denied with a record live until 700000. -/
def sC3 : RedisState := ⟨true, false, [(tExp, 700000)], []⟩

/-- Store in which tR0 is denied and tracked for u1 (the state after
u1 logs out with tR0 at instant 0). -/
def sTr : RedisState := blacklist_refresh_token sLive 0 "u1" tR0

/-- Store after: v logs out with the shared token tS at 0, u logs out
with tS at 0, u logs out with t2c at 100, v logs out with t3c at 100.
At instant 604800 the denial record of tS has lapsed while both
tracking sets (TTL refreshed at 100) are still live and contain tS. -/
def b4 : RedisState :=
  blacklist_refresh_token
    (blacklist_refresh_token
      (blacklist_refresh_token
        (blacklist_refresh_token sLive 0 "v" tS) 0 "u" tS) 100 "u" t2c) 100 "v" t3c

/-- Store after u1 logs out with tR0 at 0 and with tB at 100: the
tracking-set TTL is refreshed to 604900 while the denial record of tR0
still lapses at 604800. -/
def s10 : RedisState :=
  blacklist_refresh_token (blacklist_refresh_token sLive 0 "u1" tR0) 100 "u1" tB

/-- One active account for u1 with password oldpw. -/
def dbC4 : List UserRec := [⟨"u1", "a@x.com", some (get_password_hash "oldpw"), true⟩]

/-- One deactivated account for u1 whose password is pw. -/
def dbC5 : List UserRec := [⟨"u1", "a@x.com", some (get_password_hash "pw"), false⟩]

theorem getKey_setKey_self {κ α : Type} [DecidableEq κ] (m : List (κ × α)) (k : κ) (v : α) :
    getKey (setKey m k v) k = some v := by
  simp [setKey, getKey]

theorem getKey_delKey_ne {κ α : Type} [DecidableEq κ] (m : List (κ × α)) {k k' : κ}
    (h : k' ≠ k) : getKey (delKey m k) k' = getKey m k' := by
  induction m with
  | nil => rfl
  | cons p rest ih =>
    obtain ⟨a, b⟩ := p
    by_cases hp : a = k
    · subst hp
      have ha : ¬ a = k' := fun hh => h hh.symm
      simp [delKey, getKey, ha, ih]
    · simp only [delKey, hp, if_false, getKey]
      by_cases ha : a = k'
      · simp [ha]
      · simp [ha, ih]

theorem getKey_setKey_ne {κ α : Type} [DecidableEq κ] (m : List (κ × α)) {k k' : κ} (v : α)
    (h : k' ≠ k) : getKey (setKey m k v) k' = getKey m k' := by
  have hk : ¬ k = k' := fun hh => h hh.symm
  simp [setKey, getKey, hk, getKey_delKey_ne m h]

theorem getKey_delKey_self {κ α : Type} [DecidableEq κ] (m : List (κ × α)) (k : κ) :
    getKey (delKey m k) k = none := by
  induction m with
  | nil => rfl
  | cons p rest ih =>
    obtain ⟨a, b⟩ := p
    by_cases hp : a = k
    · simp [delKey, hp, ih]
    · simp [delKey, getKey, hp, ih]

theorem delKey_delKey_self {κ α : Type} [DecidableEq κ] (m : List (κ × α)) (k : κ) :
    delKey (delKey m k) k = delKey m k := by
  induction m with
  | nil => rfl
  | cons p rest ih =>
    obtain ⟨a, b⟩ := p
    by_cases hp : a = k
    · simp [delKey, hp, ih]
    · simp [delKey, hp, ih]

theorem setKey_setKey_self {κ α : Type} [DecidableEq κ] (m : List (κ × α)) (k : κ) (v w : α) :
    setKey (setKey m k v) k w = setKey m k w := by
  simp [setKey, delKey, delKey_delKey_self]

theorem blacklist_token_available (s : RedisState) (now : Nat) (t : SignedToken)
    (e : Nat) : (blacklist_token s now t e).available = s.available := by
  unfold blacklist_token
  split
  · rfl
  · split <;> rfl

theorem blacklist_token_failing (s : RedisState) (now : Nat) (t : SignedToken)
    (e : Nat) : (blacklist_token s now t e).failing = s.failing := by
  unfold blacklist_token
  split
  · rfl
  · split <;> rfl

theorem blacklist_token_userSets (s : RedisState) (now : Nat) (t : SignedToken)
    (e : Nat) : (blacklist_token s now t e).userSets = s.userSets := by
  unfold blacklist_token
  split
  · rfl
  · split <;> rfl

theorem blacklist_refresh_token_available (s : RedisState) (now : Nat) (uid : String)
    (t : SignedToken) :
    (blacklist_refresh_token s now uid t).available = s.available := by
  have h1 := blacklist_token_available s now t refreshTTLSeconds
  have h2 := blacklist_token_failing s now t refreshTTLSeconds
  by_cases ha : s.available = false <;> by_cases hf : s.failing = true <;>
    simp [blacklist_refresh_token, h1, h2, ha, hf]

theorem blacklist_refresh_token_failing (s : RedisState) (now : Nat) (uid : String)
    (t : SignedToken) :
    (blacklist_refresh_token s now uid t).failing = s.failing := by
  have h1 := blacklist_token_available s now t refreshTTLSeconds
  have h2 := blacklist_token_failing s now t refreshTTLSeconds
  by_cases ha : s.available = false <;> by_cases hf : s.failing = true <;>
    simp [blacklist_refresh_token, h1, h2, ha, hf]

theorem foldBT_available (l : List SignedToken) (s : RedisState) (now : Nat) :
    (l.foldl (fun acc t => blacklist_token acc now t refreshTTLSeconds) s).available
      = s.available := by
  induction l generalizing s with
  | nil => rfl
  | cons x rest ih => simp [List.foldl_cons, ih, blacklist_token_available]

theorem foldBT_failing (l : List SignedToken) (s : RedisState) (now : Nat) :
    (l.foldl (fun acc t => blacklist_token acc now t refreshTTLSeconds) s).failing
      = s.failing := by
  induction l generalizing s with
  | nil => rfl
  | cons x rest ih => simp [List.foldl_cons, ih, blacklist_token_failing]

theorem foldBT_userSets (l : List SignedToken) (s : RedisState) (now : Nat) :
    (l.foldl (fun acc t => blacklist_token acc now t refreshTTLSeconds) s).userSets
      = s.userSets := by
  induction l generalizing s with
  | nil => rfl
  | cons x rest ih => simp [List.foldl_cons, ih, blacklist_token_userSets]

theorem invalidate_available (s : RedisState) (now : Nat) (uid : String) :
    (invalidate_all_user_tokens s now uid).available = s.available := by
  unfold invalidate_all_user_tokens
  by_cases ha : s.available = false <;> by_cases hf : s.failing = true <;>
    simp [ha, hf, foldBT_available]

theorem invalidate_failing (s : RedisState) (now : Nat) (uid : String) :
    (invalidate_all_user_tokens s now uid).failing = s.failing := by
  unfold invalidate_all_user_tokens
  by_cases ha : s.available = false <;> by_cases hf : s.failing = true <;>
    simp [ha, hf, foldBT_failing]

theorem refresh_body_ok_elim {s : RedisState} {now : Nat} {t : SignedToken}
    {s1 : RedisState} {a r : SignedToken}
    (h : refresh_body s now t = .ok (s1, a, r)) :
    is_token_blacklisted s now t = false ∧ t.sigOK = true ∧ now < t.exp ∧
      ∃ uid, t.sub = some uid ∧ s1 = blacklist_refresh_token s now uid t := by
  unfold refresh_body at h
  by_cases hb : is_token_blacklisted s now t = true
  · simp [hb] at h
  · rw [Bool.not_eq_true] at hb
    by_cases hsig : t.sigOK = true
    · by_cases hexp : t.exp ≤ now
      · simp [hb, decode_token, decode, hsig, hexp] at h
      · by_cases hk : t.kind = TokenKind.refresh
        · cases hsub : t.sub with
          | none => simp [hb, decode_token, decode, hsig, hexp, hk, hsub] at h
          | some uid =>
            by_cases hu : uid = ""
            · simp [hb, decode_token, decode, hsig, hexp, hk, hsub, hu] at h
            · simp [hb, decode_token, decode, hsig, hexp, hk, hsub, hu] at h
              exact ⟨hb, hsig, Nat.lt_of_not_le hexp, uid, rfl, h.1.symm⟩
        · simp [hb, decode_token, decode, hsig, hexp, hk] at h
    · simp [hb, decode_token, decode, hsig] at h

theorem refresh_token_ok_iff {s : RedisState} {now : Nat} {t : SignedToken}
    {x : RedisState × SignedToken × SignedToken} :
    refresh_token s now t = .ok x ↔ refresh_body s now t = .ok x := by
  unfold refresh_token
  cases h : refresh_body s now t <;> simp

theorem applyOp_available (s : RedisState) (op : StoreOp) :
    (applyOp s op).available = s.available := by
  cases op with
  | logoutOp n u t => exact blacklist_refresh_token_available ..
  | invalidateOp n u => exact invalidate_available ..
  | refreshOp n t =>
    show (match refresh_token s n t with
      | .ok (s', _, _) => s'
      | .error _ => s).available = s.available
    cases h : refresh_token s n t with
    | error e => rfl
    | ok x =>
      obtain ⟨s', a, r⟩ := x
      obtain ⟨-, -, -, uid, -, hs⟩ := refresh_body_ok_elim (refresh_token_ok_iff.mp h)
      simp [hs, blacklist_refresh_token_available]

theorem applyOp_failing (s : RedisState) (op : StoreOp) :
    (applyOp s op).failing = s.failing := by
  cases op with
  | logoutOp n u t => exact blacklist_refresh_token_failing ..
  | invalidateOp n u => exact invalidate_failing ..
  | refreshOp n t =>
    show (match refresh_token s n t with
      | .ok (s', _, _) => s'
      | .error _ => s).failing = s.failing
    cases h : refresh_token s n t with
    | error e => rfl
    | ok x =>
      obtain ⟨s', a, r⟩ := x
      obtain ⟨-, -, -, uid, -, hs⟩ := refresh_body_ok_elim (refresh_token_ok_iff.mp h)
      simp [hs, blacklist_refresh_token_failing]

theorem applyOps_available (ops : List StoreOp) (s : RedisState) :
    (applyOps s ops).available = s.available := by
  induction ops generalizing s with
  | nil => rfl
  | cons op rest ih =>
    have hstep : applyOps s (op :: rest) = applyOps (applyOp s op) rest := rfl
    rw [hstep, ih, applyOp_available]

theorem applyOps_failing (ops : List StoreOp) (s : RedisState) :
    (applyOps s ops).failing = s.failing := by
  induction ops generalizing s with
  | nil => rfl
  | cons op rest ih =>
    have hstep : applyOps s (op :: rest) = applyOps (applyOp s op) rest := rfl
    rw [hstep, ih, applyOp_failing]

theorem blacklist_token_denial {s : RedisState} {t0 : SignedToken} {e B : Nat}
    (t : SignedToken) (m ttl : Nat)
    (h : getKey s.blacklist t0 = some e) (hB : B ≤ e) (hm : B ≤ m + ttl) :
    ∃ e', getKey (blacklist_token s m t ttl).blacklist t0 = some e' ∧ B ≤ e' := by
  unfold blacklist_token
  by_cases ha : s.available = false
  · exact ⟨e, by simp [ha, h], hB⟩
  · by_cases hf : s.failing = true
    · exact ⟨e, by simp [ha, hf, h], hB⟩
    · by_cases ht : t = t0
      · subst ht
        exact ⟨m + ttl, by simp [ha, hf, getKey_setKey_self], hm⟩
      · exact ⟨e, by
          simp [ha, hf, getKey_setKey_ne _ _ (fun hh => ht hh.symm), h], hB⟩

theorem blacklist_refresh_token_blacklist (s : RedisState) (now : Nat) (uid : String)
    (t : SignedToken) :
    (blacklist_refresh_token s now uid t).blacklist
      = (blacklist_token s now t refreshTTLSeconds).blacklist := by
  have h1 := blacklist_token_available s now t refreshTTLSeconds
  have h2 := blacklist_token_failing s now t refreshTTLSeconds
  by_cases ha : s.available = false <;> by_cases hf : s.failing = true <;>
    simp [blacklist_refresh_token, h1, h2, ha, hf]

theorem blacklist_refresh_token_denial {s : RedisState} {t0 : SignedToken} {e B : Nat}
    (uid : String) (t : SignedToken) (m : Nat)
    (h : getKey s.blacklist t0 = some e) (hB : B ≤ e) (hm : B ≤ m + refreshTTLSeconds) :
    ∃ e', getKey (blacklist_refresh_token s m uid t).blacklist t0 = some e' ∧ B ≤ e' := by
  obtain ⟨e', h1, h2⟩ := blacklist_token_denial t m refreshTTLSeconds h hB hm
  rw [blacklist_refresh_token_blacklist]
  exact ⟨e', h1, h2⟩

theorem foldBT_denial {t0 : SignedToken} {B : Nat} (now : Nat) (l : List SignedToken)
    (s : RedisState) {e : Nat}
    (h : getKey s.blacklist t0 = some e) (hB : B ≤ e) (hm : B ≤ now + refreshTTLSeconds) :
    ∃ e', getKey ((l.foldl (fun acc t => blacklist_token acc now t refreshTTLSeconds)
      s)).blacklist t0 = some e' ∧ B ≤ e' := by
  induction l generalizing s e with
  | nil => exact ⟨e, h, hB⟩
  | cons x rest ih =>
    obtain ⟨e1, hx1, hx2⟩ := blacklist_token_denial x now refreshTTLSeconds h hB hm
    exact ih _ hx1 hx2

theorem invalidate_denial {s : RedisState} {t0 : SignedToken} {e B : Nat}
    (uid : String) (m : Nat)
    (h : getKey s.blacklist t0 = some e) (hB : B ≤ e) (hm : B ≤ m + refreshTTLSeconds) :
    ∃ e', getKey (invalidate_all_user_tokens s m uid).blacklist t0 = some e' ∧ B ≤ e' := by
  unfold invalidate_all_user_tokens
  by_cases ha : s.available = false
  · exact ⟨e, by simp [ha, h], hB⟩
  · by_cases hf : s.failing = true
    · exact ⟨e, by simp [ha, hf, h], hB⟩
    · simp only [ha, hf, if_false]
      exact foldBT_denial m (liveMembers s uid m) s h hB hm

theorem applyOp_denial {t0 : SignedToken} {now0 : Nat} (op : StoreOp) (s : RedisState)
    (hop : now0 ≤ op.time)
    (h : ∃ e, getKey s.blacklist t0 = some e ∧ now0 + refreshTTLSeconds ≤ e) :
    ∃ e, getKey (applyOp s op).blacklist t0 = some e
      ∧ now0 + refreshTTLSeconds ≤ e := by
  obtain ⟨e, hg, hB⟩ := h
  cases op with
  | logoutOp n u t =>
    exact blacklist_refresh_token_denial u t n hg hB (Nat.add_le_add_right hop _)
  | invalidateOp n u =>
    exact invalidate_denial u n hg hB (Nat.add_le_add_right hop _)
  | refreshOp n t =>
    show ∃ e, getKey (match refresh_token s n t with
      | .ok (s', _, _) => s'
      | .error _ => s).blacklist t0 = some e ∧ now0 + refreshTTLSeconds ≤ e
    cases hr : refresh_token s n t with
    | error e2 => exact ⟨e, hg, hB⟩
    | ok x =>
      obtain ⟨s', a, r⟩ := x
      obtain ⟨-, -, -, uid, -, hs⟩ := refresh_body_ok_elim (refresh_token_ok_iff.mp hr)
      rw [hs]
      exact blacklist_refresh_token_denial uid t n hg hB (Nat.add_le_add_right hop _)

theorem applyOps_denial {t0 : SignedToken} {now0 : Nat} (ops : List StoreOp)
    (s : RedisState) (hops : ∀ op ∈ ops, now0 ≤ op.time)
    (h : ∃ e, getKey s.blacklist t0 = some e ∧ now0 + refreshTTLSeconds ≤ e) :
    ∃ e, getKey (applyOps s ops).blacklist t0 = some e
      ∧ now0 + refreshTTLSeconds ≤ e := by
  induction ops generalizing s with
  | nil => exact h
  | cons op rest ih =>
    have hstep : applyOps s (op :: rest) = applyOps (applyOp s op) rest := rfl
    rw [hstep]
    exact ih (applyOp s op)
      (fun o ho => hops o (List.mem_cons_of_mem op ho))
      (applyOp_denial op s (hops op (List.mem_cons_self op rest)) h)

theorem refreshTTL_pos : 0 < refreshTTLSeconds := by decide

theorem blacklist_refresh_token_self {s : RedisState} (now : Nat) (uid : String)
    (t : SignedToken) (ha : s.available = true) (hf : s.failing = false) :
    getKey (blacklist_refresh_token s now uid t).blacklist t
      = some (now + refreshTTLSeconds) := by
  rw [blacklist_refresh_token_blacklist]
  unfold blacklist_token
  simp [ha, hf, getKey_setKey_self]

theorem is_blacklisted_after_brt {s : RedisState} (now : Nat) (uid : String)
    (t : SignedToken) (ha : s.available = true) (hf : s.failing = false) :
    is_token_blacklisted (blacklist_refresh_token s now uid t) now t = true := by
  have h1 := blacklist_refresh_token_available s now uid t
  have h2 := blacklist_refresh_token_failing s now uid t
  rw [is_token_blacklisted, blacklist_refresh_token_self now uid t ha hf]
  simp [h1, h2, ha, hf, Nat.lt_add_of_pos_right refreshTTL_pos]

theorem blacklist_refresh_token_form (s : RedisState) (now : Nat) (uid : String)
    (t : SignedToken) (ha : s.available = true) (hf : s.failing = false) :
    blacklist_refresh_token s now uid t =
      { s with
        blacklist := setKey s.blacklist t (now + refreshTTLSeconds),
        userSets := setKey s.userSets uid
          (if t ∈ liveMembers s uid now then liveMembers s uid now
           else t :: liveMembers s uid now, now + refreshTTLSeconds) } := by
  unfold blacklist_refresh_token blacklist_token
  simp [ha, hf, liveMembers]

theorem tracked_after_brt {s : RedisState} (now : Nat) (uid : String) (t : SignedToken)
    (ha : s.available = true) (hf : s.failing = false) :
    t ∈ liveMembers (blacklist_refresh_token s now uid t) uid now := by
  rw [blacklist_refresh_token_form s now uid t ha hf, liveMembers]
  simp only [getKey_setKey_self]
  simp [Nat.lt_add_of_pos_right refreshTTL_pos]
  by_cases hm : t ∈ liveMembers s uid now <;> simp [hm]

theorem foldBT_not_mem {now : Nat} (l : List SignedToken) (s : RedisState)
    {t : SignedToken} (hmem : t ∉ l) :
    getKey ((l.foldl (fun acc x => blacklist_token acc now x refreshTTLSeconds)
      s)).blacklist t = getKey s.blacklist t := by
  induction l generalizing s with
  | nil => rfl
  | cons x rest ih =>
    have hx : t ∉ rest := fun hh => hmem (List.mem_cons_of_mem x hh)
    have hxt : x ≠ t := fun hh => hmem (hh ▸ List.mem_cons_self x rest)
    simp only [List.foldl_cons]
    rw [ih _ hx]
    unfold blacklist_token
    by_cases ha : s.available = false
    · simp [ha]
    · by_cases hf : s.failing = true
      · simp [ha, hf]
      · simp [ha, hf, getKey_setKey_ne _ _ (fun hh => hxt hh.symm)]

theorem foldBT_mem {now : Nat} (l : List SignedToken) (s : RedisState)
    {t : SignedToken} (ha : s.available = true) (hf : s.failing = false)
    (hmem : t ∈ l) :
    getKey ((l.foldl (fun acc x => blacklist_token acc now x refreshTTLSeconds)
      s)).blacklist t = some (now + refreshTTLSeconds) := by
  induction l generalizing s with
  | nil => cases hmem
  | cons x rest ih =>
    simp only [List.foldl_cons]
    by_cases hx : t ∈ rest
    · exact ih (blacklist_token s now x _)
        (by rw [blacklist_token_available]; exact ha)
        (by rw [blacklist_token_failing]; exact hf) hx
    · have hxt : x = t := by
        rcases List.mem_cons.mp hmem with h | h
        · exact h.symm
        · exact absurd h hx
      subst hxt
      rw [foldBT_not_mem rest _ hx]
      unfold blacklist_token
      simp [ha, hf, getKey_setKey_self]

theorem refresh_token_blacklisted {s : RedisState} {now : Nat} {t : SignedToken}
    (h : is_token_blacklisted s now t = true) :
    refresh_token s now t = .error .couldNotValidate := by
  unfold refresh_token refresh_body
  simp [h, AuthError.isHTTP]

theorem refresh_token_expired {s : RedisState} {now : Nat} {t : SignedToken}
    (hb : is_token_blacklisted s now t = false) (hsig : t.sigOK = true)
    (hexp : t.exp ≤ now) :
    refresh_token s now t = .error .tokenExpired := by
  unfold refresh_token refresh_body decode_token decode
  simp [hb, hsig, hexp, AuthError.isHTTP]

theorem brt_noop_unavailable (s : RedisState) (now : Nat) (uid : String)
    (t : SignedToken) (ha : s.available = false) :
    blacklist_refresh_token s now uid t = s := by
  unfold blacklist_refresh_token blacklist_token
  simp [ha]

theorem brt_noop_failing (s : RedisState) (now : Nat) (uid : String)
    (t : SignedToken) (hf : s.failing = true) :
    blacklist_refresh_token s now uid t = s := by
  unfold blacklist_refresh_token blacklist_token
  by_cases ha : s.available = false <;> simp [ha, hf]

theorem brt_idem (s : RedisState) (now : Nat) (uid : String) (t : SignedToken) :
    blacklist_refresh_token (blacklist_refresh_token s now uid t) now uid t
      = blacklist_refresh_token s now uid t := by
  by_cases ha : s.available = false
  · rw [brt_noop_unavailable s now uid t ha, brt_noop_unavailable s now uid t ha]
  · by_cases hf : s.failing = true
    · rw [brt_noop_failing s now uid t hf, brt_noop_failing s now uid t hf]
    · have ha' : s.available = true := by revert ha; cases s.available <;> simp
      have hf' : s.failing = false := by revert hf; cases s.failing <;> simp
      rw [blacklist_refresh_token_form s now uid t ha' hf']
      rw [blacklist_refresh_token_form _ now uid t (by simp [ha']) (by simp [hf'])]
      simp only [setKey_setKey_self]
      have hlm : liveMembers
          { s with
            blacklist := setKey s.blacklist t (now + refreshTTLSeconds),
            userSets := setKey s.userSets uid
              (if t ∈ liveMembers s uid now then liveMembers s uid now
               else t :: liveMembers s uid now, now + refreshTTLSeconds) } uid now
          = (if t ∈ liveMembers s uid now then liveMembers s uid now
             else t :: liveMembers s uid now) := by
        rw [liveMembers]
        simp only [getKey_setKey_self]
        simp [Nat.lt_add_of_pos_right refreshTTL_pos]
      rw [hlm]
      by_cases hm : t ∈ liveMembers s uid now <;> simp [hm]

theorem is_blacklisted_eval {s : RedisState} {now : Nat} {t : SignedToken} {e : Nat}
    (ha : s.available = true) (hf : s.failing = false)
    (hg : getKey s.blacklist t = some e) :
    is_token_blacklisted s now t = decide (now < e) := by
  unfold is_token_blacklisted
  simp [ha, hf, hg]

/-- C1 counterexample: with the revocation store unreachable the claim
fails as stated.  The first refresh call on a fresh valid token
succeeds and leaves the store unchanged (the deny-write is a silent
no-op), so the second call with the same token string also succeeds:
it is false that exactly one of the two calls succeeds, and the
exchanged token remains exchangeable. -/
theorem C1_refresh_reusable_when_store_down :
    refresh_token sDown 1 tR0
        = .ok (sDown, create_access_token "u1" 1, create_refresh_token "u1" 1)
      ∧ isOkE (refresh_token sDown 2 tR0) = true :=
  ⟨rfl, rfl⟩

/-- C1 (amended): single-use refresh tokens under a live store.  If
the store is reachable and not erroring and a refresh call for token t
succeeds at instant now — where the expiry of t is within the refresh
lifetime of now, as holds for every genuinely issued refresh token —
then after any further sequence of logout / refresh / invalidate
events at instants ≥ now, a refresh call with the same t at any
instant ≥ now fails: with the generic could-not-validate error (the
revoked branch, rewrapped by the handler catch-all) while the denial
record lives, and with the expired error after it lapses. -/
theorem C1_refresh_single_use (s : RedisState) (now now' : Nat) (t : SignedToken)
    (ops : List StoreOp) (s1 : RedisState) (a r : SignedToken)
    (hA : s.available = true) (hF : s.failing = false)
    (hexp : t.exp ≤ now + refreshTTLSeconds)
    (h1 : refresh_token s now t = .ok (s1, a, r))
    (hops : ∀ op ∈ ops, now ≤ op.time)
    (_hn : now ≤ now') :
    refresh_token (applyOps s1 ops) now' t = .error .couldNotValidate
      ∨ refresh_token (applyOps s1 ops) now' t = .error .tokenExpired := by
  obtain ⟨hbl, hsig, hlt, uid, hsub, hs1⟩ :=
    refresh_body_ok_elim (refresh_token_ok_iff.mp h1)
  have hs1A : s1.available = true := by
    rw [hs1, blacklist_refresh_token_available]; exact hA
  have hs1F : s1.failing = false := by
    rw [hs1, blacklist_refresh_token_failing]; exact hF
  have hentry : getKey s1.blacklist t = some (now + refreshTTLSeconds) := by
    rw [hs1]; exact blacklist_refresh_token_self now uid t hA hF
  obtain ⟨e, hge, hBe⟩ :=
    applyOps_denial ops s1 hops ⟨now + refreshTTLSeconds, hentry, Nat.le_refl _⟩
  have hfA : (applyOps s1 ops).available = true := by
    rw [applyOps_available]; exact hs1A
  have hfF : (applyOps s1 ops).failing = false := by
    rw [applyOps_failing]; exact hs1F
  by_cases hlt' : now' < e
  · left
    apply refresh_token_blacklisted
    rw [is_blacklisted_eval hfA hfF hge]
    exact decide_eq_true hlt'
  · right
    apply refresh_token_expired
    · rw [is_blacklisted_eval hfA hfF hge]
      exact decide_eq_false hlt'
    · exact hsig
    · exact Nat.le_trans hexp (Nat.le_trans hBe (Nat.le_of_not_lt hlt'))

/-- C1 witness: a concrete live store, a refresh token issued at 0 and
exchanged at 0; the repeated call at instant 5 fails. -/
theorem C1_refresh_single_use_witness :
    refresh_token (applyOps (blacklist_refresh_token sLive 0 "u1" tR0) []) 5 tR0
        = .error .couldNotValidate
      ∨ refresh_token (applyOps (blacklist_refresh_token sLive 0 "u1" tR0) []) 5 tR0
        = .error .tokenExpired :=
  C1_refresh_single_use sLive 0 5 tR0 []
    (blacklist_refresh_token sLive 0 "u1" tR0)
    (create_access_token "u1" 0) (create_refresh_token "u1" 0)
    rfl rfl (by decide) rfl
    (fun op h => absurd h (List.not_mem_nil op)) (by decide)

/-- C2: evidence of the code bug.  When the deny-write fails — the
client raising on every round trip, or absent altogether — the refresh
handler does not abort: blacklist_token swallows the failure, the
store is returned unchanged (no denial recorded for the presented
token) and a fresh pair is issued anyway, exactly what the spec says
must not happen. -/
theorem C2_refresh_proceeds_after_failed_deny_write :
    refresh_token sFailing 1 tR0
        = .ok (sFailing, create_access_token "u1" 1, create_refresh_token "u1" 1)
      ∧ refresh_token sDown 3 tR0
        = .ok (sDown, create_access_token "u1" 3, create_refresh_token "u1" 3) :=
  ⟨rfl, rfl⟩

/-- C3 counterexample: tExp is expired at instant 200 (expiry 100) and
its denial record is live, yet refresh fails with the generic
could-not-validate error — the revocation branch runs first and its
typed error is rewrapped — not with the expired error the claim
requires. -/
theorem C3_expired_and_denied_not_expired_error :
    tExp.exp ≤ 200
      ∧ is_token_blacklisted sC3 200 tExp = true
      ∧ refresh_token sC3 200 tExp = .error .couldNotValidate :=
  ⟨by decide, by decide, rfl⟩

/-- C3 (amended): the revocation check precedes everything else in the
refresh handler, so an expired, correctly signed token fails with the
generic could-not-validate error when its denial record is live, and
with the expired error only when it is not denied. -/
theorem C3_refresh_expired_precedence (s : RedisState) (now : Nat) (t : SignedToken)
    (hexp : t.exp ≤ now) (hsig : t.sigOK = true) :
    refresh_token s now t
      = .error (if is_token_blacklisted s now t = true then .couldNotValidate
                else .tokenExpired) := by
  by_cases hb : is_token_blacklisted s now t = true
  · rw [refresh_token_blacklisted hb]
    simp [hb]
  · rw [Bool.not_eq_true] at hb
    rw [refresh_token_expired hb hsig hexp]
    simp [hb]

/-- C3 witness: the expired token tExp presented at 200 to the empty
live store. -/
theorem C3_refresh_expired_precedence_witness :
    refresh_token sLive 200 tExp
      = .error (if is_token_blacklisted sLive 200 tExp = true then .couldNotValidate
                else .tokenExpired) :=
  C3_refresh_expired_precedence sLive 200 tExp (by decide) rfl

/-- C4: evidence of the code bug.  A successful password change leaves
the revocation store unchanged — no call to
invalidate_all_user_tokens exists anywhere in the handler or the
service (the function has no caller in the repository) — so a refresh
token issued before the change still refreshes successfully
afterwards, contradicting the claim that all previously issued
sessions are invalidated. -/
theorem C4_change_password_keeps_sessions :
    change_password_endpoint dbC4 sLive "u1" "oldpw" "newpw"
        = .ok ([⟨"u1", "a@x.com", some (get_password_hash "newpw"), true⟩], sLive)
      ∧ isOkE (refresh_token sLive 10 tR0) = true :=
  ⟨rfl, rfl⟩

/-- C5: evidence of the code bug.  For an existing, deactivated
account presented with the correct password, authenticate itself
returns none because it checks the active flag internally, so the
login handler raises the invalid-credentials error; the
inactive-account branch of the handler is unreachable dead code.  The
typed inactive outcome the claim requires is never produced. -/
theorem C5_login_inactive_invalid_credentials :
    authenticate dbC5 "a@x.com" "pw" = none
      ∧ login dbC5 sLive 0 "a@x.com" "pw" = .error .invalidCredentials
      ∧ AuthError.invalidCredentials ≠ AuthError.inactiveAccount :=
  ⟨rfl, rfl, by decide⟩

/-- C6 counterexample.  First conjunct: after invalidation, refreshing
a previously tracked token fails with the generic could-not-validate
error, not the revoked error the claim names (the typed revoked error
is rewrapped by the handler catch-all).  Remaining conjuncts: the
frame part also fails — in state b4 the token tS sits in the tracking
sets of both u and v, its denial record has lapsed at 604800 while
both sets live on; invalidating u leaves the v set unchanged yet
flips the denial status of tS, a token tracked for the other subject
v, from false to true. -/
theorem C6_invalidate_counterexample :
    refresh_token (invalidate_all_user_tokens sTr 10 "u1") 10 tR0
        = .error .couldNotValidate
      ∧ tS ∈ liveMembers b4 "v" 604800
      ∧ is_token_blacklisted b4 604800 tS = false
      ∧ getKey (invalidate_all_user_tokens b4 604800 "u").userSets "v"
          = getKey b4.userSets "v"
      ∧ is_token_blacklisted (invalidate_all_user_tokens b4 604800 "u") 604800 tS
          = true :=
  ⟨rfl, by decide, by decide, by decide, by decide⟩

/-- C6 (amended): effect and frame of invalidate_all_user_tokens on a
live store.  Every token in the live tracked set of the subject is
denied and a subsequent refresh with it fails (with the generic
could-not-validate error, the rewrapped revoked branch); the tracked
set of the subject is deleted; the tracked set of every other subject
is unchanged; and the denial record of every token not in the live
tracked set of the subject is unchanged.  (A token tracked for two
subjects at once is re-denied, which is what the counterexample
exhibits.) -/
theorem C6_invalidate_all_effect (s : RedisState) (now : Nat) (uid : String)
    (hA : s.available = true) (hF : s.failing = false) :
    (∀ t ∈ liveMembers s uid now,
        refresh_token (invalidate_all_user_tokens s now uid) now t
          = .error .couldNotValidate)
      ∧ getKey (invalidate_all_user_tokens s now uid).userSets uid = none
      ∧ (∀ v, v ≠ uid →
          getKey (invalidate_all_user_tokens s now uid).userSets v
            = getKey s.userSets v)
      ∧ (∀ t', t' ∉ liveMembers s uid now →
          getKey (invalidate_all_user_tokens s now uid).blacklist t'
            = getKey s.blacklist t') := by
  have hform : invalidate_all_user_tokens s now uid =
      { (liveMembers s uid now).foldl
          (fun acc t => blacklist_token acc now t refreshTTLSeconds) s with
        userSets := delKey ((liveMembers s uid now).foldl
          (fun acc t => blacklist_token acc now t refreshTTLSeconds) s).userSets uid } := by
    unfold invalidate_all_user_tokens
    simp [hA, hF]
  have hia : (invalidate_all_user_tokens s now uid).available = true := by
    rw [invalidate_available]; exact hA
  have hif : (invalidate_all_user_tokens s now uid).failing = false := by
    rw [invalidate_failing]; exact hF
  refine ⟨?_, ?_, ?_, ?_⟩
  · intro t ht
    apply refresh_token_blacklisted
    have hg : getKey (invalidate_all_user_tokens s now uid).blacklist t
        = some (now + refreshTTLSeconds) := by
      rw [hform]
      exact foldBT_mem _ s hA hF ht
    rw [is_blacklisted_eval hia hif hg]
    exact decide_eq_true (Nat.lt_add_of_pos_right refreshTTL_pos)
  · rw [hform]
    exact getKey_delKey_self _ uid
  · intro v hv
    rw [hform]
    show getKey (delKey _ uid) v = _
    rw [getKey_delKey_ne _ hv, foldBT_userSets]
  · intro t' ht'
    rw [hform]
    exact foldBT_not_mem _ s ht'

/-- C6 witness: in the store where tR0 is tracked for u1, invalidating
u1 at instant 10 makes a refresh with tR0 fail. -/
theorem C6_invalidate_all_effect_witness :
    tR0 ∈ liveMembers sTr "u1" 10
      ∧ refresh_token (invalidate_all_user_tokens sTr 10 "u1") 10 tR0
          = .error .couldNotValidate :=
  ⟨by decide, (C6_invalidate_all_effect sTr 10 "u1" rfl rfl).1 tR0 (by decide)⟩

/-- C7 counterexample: a second logout with the same token one second
later succeeds but does not leave the store in the same state — the
SETEX and EXPIRE writes refresh both TTLs, moving the denial record
and set expiries one second later. -/
theorem C7_second_logout_changes_state :
    logout sLive 0 "u1" tR0 = .ok sTr
      ∧ logout sTr 1 "u1" tR0 = .ok (blacklist_refresh_token sTr 1 "u1" tR0)
      ∧ blacklist_refresh_token sTr 1 "u1" tR0 ≠ sTr :=
  ⟨rfl, rfl, by decide⟩

/-- C7 (amended): logout never errors — for every store state,
including an unreachable or erroring store and an already-denied or
expired token, it succeeds — and a repeated logout at the same instant
leaves the store in exactly the same state as the first call. -/
theorem C7_logout_idempotent (s : RedisState) (now : Nat) (uid : String)
    (t : SignedToken) :
    logout s now uid t = .ok (blacklist_refresh_token s now uid t)
      ∧ logout (blacklist_refresh_token s now uid t) now uid t
          = .ok (blacklist_refresh_token s now uid t) :=
  ⟨rfl, congrArg Except.ok (brt_idem s now uid t)⟩

/-- C8: is_token_blacklisted fails open — with no client connection,
or with the existence check raising a store error, it returns false
and the token is treated as not denied. -/
theorem C8_is_denied_fails_open (s : RedisState) (now : Nat) (t : SignedToken)
    (h : s.available = false ∨ s.failing = true) :
    is_token_blacklisted s now t = false := by
  unfold is_token_blacklisted
  rcases h with h | h
  · simp [h]
  · by_cases ha : s.available = false <;> simp [ha, h]

/-- C8 witness: both failure modes at a concrete token and instant. -/
theorem C8_is_denied_fails_open_witness :
    is_token_blacklisted sDown 3 tR0 = false
      ∧ is_token_blacklisted sFailing 3 tR0 = false :=
  ⟨C8_is_denied_fails_open sDown 3 tR0 (Or.inl rfl),
   C8_is_denied_fails_open sFailing 3 tR0 (Or.inr rfl)⟩

/-- C9: codec round trip — decoding an issued token succeeds and
yields back the same subject id and the same kind, with the expiry
minus the issue instant equal to the requested ttl, for every subject,
kind, instant and ttl. -/
theorem C9_codec_round_trip (subject : String) (kind : TokenKind) (now ttl : Nat) :
    decode (issue subject kind now ttl) = .ok (issue subject kind now ttl)
      ∧ (issue subject kind now ttl).sub = some subject
      ∧ (issue subject kind now ttl).kind = kind
      ∧ (issue subject kind now ttl).exp - (issue subject kind now ttl).iat = ttl := by
  refine ⟨rfl, rfl, rfl, ?_⟩
  show now + ttl - now = ttl
  omega

/-- C10 counterexample: in state s10 the set of u1 was refreshed to
expiry 604900 by the second logout while the denial record of tR0
still lapses at 604800; at instant 604850 the token tR0 is present in
the live tracking set but absent from the blacklist. -/
theorem C10_tracking_set_outlives_denial :
    tR0 ∈ liveMembers s10 "u1" 604850
      ∧ is_token_blacklisted s10 604850 tR0 = false :=
  ⟨by decide, by decide⟩

/-- C10 (amended): at the moment a token is added to a tracking set by
blacklist_refresh_token on a live store it is denied and tracked; and
the login handler never touches the revocation store, so a refresh
token issued at login is not tracked until presented to refresh or
logout.  (The unqualified invariant fails later in time: set TTLs are
refreshed by further adds while denial records are not, as the
counterexample exhibits.) -/
theorem C10_tracked_denied_on_add (s : RedisState) (now : Nat) (uid : String)
    (t : SignedToken) (hA : s.available = true) (hF : s.failing = false) :
    is_token_blacklisted (blacklist_refresh_token s now uid t) now t = true
      ∧ t ∈ liveMembers (blacklist_refresh_token s now uid t) uid now
      ∧ ∀ (db : List UserRec) (sr : RedisState) (n : Nat) (email pw : String)
          (a r : SignedToken),
          login db s n email pw = .ok (sr, a, r) → sr = s := by
  refine ⟨is_blacklisted_after_brt now uid t hA hF,
    tracked_after_brt now uid t hA hF, ?_⟩
  intro db sr n email pw a r h
  unfold login at h
  cases hauth : authenticate db email pw with
  | none => simp [hauth] at h
  | some u =>
    by_cases hact : u.is_active = false <;> simp [hauth, hact] at h
    exact h.1.symm

/-- C10 witness: tR0 added for u1 at instant 0 on the empty live
store. -/
theorem C10_tracked_denied_on_add_witness :
    is_token_blacklisted (blacklist_refresh_token sLive 0 "u1" tR0) 0 tR0 = true
      ∧ tR0 ∈ liveMembers (blacklist_refresh_token sLive 0 "u1" tR0) "u1" 0 :=
  ⟨(C10_tracked_denied_on_add sLive 0 "u1" tR0 rfl rfl).1,
   (C10_tracked_denied_on_add sLive 0 "u1" tR0 rfl rfl).2.1⟩
